import Mathlib

/-!
Shallow embedding of the ggwave-rs wrapper library (src/src/lib.rs, src/src/ffi.rs)
and of the sample-conversion step of its command-line front end
(src/ggwave-cli/src/main.rs).

The native codec ("Engine", the vendored ggwave C library) is reached only through
the FFI declarations of src/src/ffi.rs.  It is modelled here as an oracle: a
structure of functions giving, for each call site, the return code the Engine
reports and the bytes it writes into the caller-supplied buffer.  Every wrapper
operation is translated from the Rust source and additionally returns the list
of Engine calls it performed, so that claims of the form "no Engine call is made
before this check" or "the handle-free operation is invoked exactly once" can be
stated about the call trace.

Machine integers are modelled as `Int`/`Nat`; `c_int` values are `Int` and the
`c_int::try_from(usize)` bound is the explicit constant `c_int_max = 2^31 - 1`.
Bytes are `Nat` (their numeric value is never computed with).  The `c_float`
fields of the configuration struct are carried as opaque 32-bit patterns
(`Nat`); the wrapper never computes with them, it only stores and returns them.
-/

/-- Bit pattern of a C `float`; the wrapper stores and copies these by value and
never computes with them. -/
abbrev c_float := Nat

/-- Mirrors `ggwave_SampleFormat` of src/src/ffi.rs. -/
inductive ggwave_SampleFormat where
  | GGWAVE_SAMPLE_FORMAT_UNDEFINED
  | GGWAVE_SAMPLE_FORMAT_U8
  | GGWAVE_SAMPLE_FORMAT_I8
  | GGWAVE_SAMPLE_FORMAT_U16
  | GGWAVE_SAMPLE_FORMAT_I16
  | GGWAVE_SAMPLE_FORMAT_F32
  deriving DecidableEq

/-- Mirrors `ggwave_ProtocolId` of src/src/ffi.rs. -/
inductive ggwave_ProtocolId where
  | GGWAVE_PROTOCOL_AUDIBLE_NORMAL
  | GGWAVE_PROTOCOL_AUDIBLE_FAST
  | GGWAVE_PROTOCOL_AUDIBLE_FASTEST
  | GGWAVE_PROTOCOL_ULTRASOUND_NORMAL
  | GGWAVE_PROTOCOL_ULTRASOUND_FAST
  | GGWAVE_PROTOCOL_ULTRASOUND_FASTEST
  | GGWAVE_PROTOCOL_DT_NORMAL
  | GGWAVE_PROTOCOL_DT_FAST
  | GGWAVE_PROTOCOL_DT_FASTEST
  | GGWAVE_PROTOCOL_MT_NORMAL
  | GGWAVE_PROTOCOL_MT_FAST
  | GGWAVE_PROTOCOL_MT_FASTEST
  | GGWAVE_PROTOCOL_CUSTOM_0
  | GGWAVE_PROTOCOL_CUSTOM_1
  | GGWAVE_PROTOCOL_CUSTOM_2
  | GGWAVE_PROTOCOL_CUSTOM_3
  | GGWAVE_PROTOCOL_CUSTOM_4
  | GGWAVE_PROTOCOL_CUSTOM_5
  | GGWAVE_PROTOCOL_CUSTOM_6
  | GGWAVE_PROTOCOL_CUSTOM_7
  | GGWAVE_PROTOCOL_CUSTOM_8
  | GGWAVE_PROTOCOL_CUSTOM_9
  | GGWAVE_PROTOCOL_COUNT
  deriving DecidableEq

/-- `GGWAVE_MAX_INSTANCES` of src/src/ffi.rs. -/
def GGWAVE_MAX_INSTANCES : Int := 4

/-- Mirrors `ggwave_Parameters` of src/src/ffi.rs (re-exported as `Parameters`
by src/src/lib.rs). -/
structure ggwave_Parameters where
  payloadLength : Int
  sampleRateInp : c_float
  sampleRateOut : c_float
  sampleRate : c_float
  samplesPerFrame : Int
  soundMarkerThreshold : c_float
  sampleFormatInp : ggwave_SampleFormat
  sampleFormatOut : ggwave_SampleFormat
  operatingMode : Int
  deriving DecidableEq

/-- `MAX_DATA_SIZE` of src/src/lib.rs line 14. -/
def MAX_DATA_SIZE : Nat := 256

/-- Mirrors `enum Error` of src/src/lib.rs. -/
inductive Error where
  | InitFailed
  | EncodeFailed
  | DecodeFailed
  | BufferTooSmall
  | InvalidInput (msg : String)
  deriving DecidableEq

/-- One call crossing the FFI boundary into the Engine; the wrapper operations
below record the calls they make, in order.  For `encodeCall`, `nullBuffer`
records whether the waveform-buffer argument was a null pointer and `query` the
literal query flag passed. -/
inductive EngineCall where
  | initCall (parameters : ggwave_Parameters)
  | freeCall (inst : Int)
  | encodeCall (inst : Int) (payloadSize : Int) (protocol : ggwave_ProtocolId)
      (volume : Int) (nullBuffer : Bool) (query : Int)
  | ndecodeCall (inst : Int) (waveformSize : Int) (payloadSize : Int)
  deriving DecidableEq

/-- The Engine oracle: for each FFI entry point used by the wrapper, the return
code it produces and (for the buffer-filling calls) the bytes it writes into
the caller's buffer.  `encodeRC` takes the query flag last; `encodeBytes` is
the byte sequence the fill-phase call writes, `ndecodeBytes` the byte sequence
the decode call writes into the destination buffer (both are clipped to the
buffer's capacity by `overwrite` below, as a memcpy into a fixed buffer is). -/
structure Engine where
  initRC : ggwave_Parameters → Int
  encodeRC : Int → List Nat → Int → ggwave_ProtocolId → Int → Int → Int
  encodeBytes : Int → List Nat → Int → ggwave_ProtocolId → Int → List Nat
  ndecodeRC : Int → List Nat → Int → Int → Int
  ndecodeBytes : Int → List Nat → Int → Int → List Nat

/-- Largest value of a C `int` (`i32::MAX`). -/
def c_int_max : Int := 2147483647

/-- Mirrors `to_c_int` of src/src/lib.rs lines 168-170: `c_int::try_from(value)`
on a `usize` succeeds exactly when the value is at most `i32::MAX`. -/
def to_c_int (value : Nat) (context : String) : Except Error Int :=
  if (value : Int) ≤ c_int_max then Except.ok (value : Int)
  else Except.error (Error.InvalidInput context)

/-- The Engine writing `src` into a caller-owned buffer `dst`: the written bytes
overwrite a prefix of the buffer and the buffer keeps its length. -/
def overwrite (dst src : List Nat) : List Nat :=
  src.take dst.length ++ dst.drop src.length

/-- Mirrors `struct GgWave` of src/src/lib.rs (the Session): the Engine handle
and the by-value copy of the parameters.  The `PhantomData<Rc<()>>` marker has
no value-level content and is not modelled.  The field `instance` is renamed
`inst` because `instance` is a Lean keyword; `parameters` doubles as the
`parameters()` accessor of src/src/lib.rs lines 68-70, which returns the stored
struct unchanged. -/
structure GgWave where
  inst : Int
  parameters : ggwave_Parameters
  deriving DecidableEq

/-- Mirrors `GgWave::new` of src/src/lib.rs lines 55-66, paired with the list of
Engine calls made. -/
def GgWave.new (e : Engine) (parameters : ggwave_Parameters) :
    Except Error GgWave × List EngineCall :=
  let inst := e.initRC parameters
  if inst < 0 then (Except.error Error.InitFailed, [EngineCall.initCall parameters])
  else (Except.ok ⟨inst, parameters⟩, [EngineCall.initCall parameters])

/-- Mirrors `GgWave::encode` of src/src/lib.rs lines 72-118, paired with the
list of Engine calls made: the volume range check, the `to_c_int` length check,
the query-phase call (null buffer, query flag 1), the fill-phase call (query
flag 0) into a buffer of the queried size, and `Vec::truncate` to the fill
return value (`List.take`, which like `truncate` never lengthens). -/
def GgWave.encode (e : Engine) (self : GgWave) (payload : List Nat)
    (protocol : ggwave_ProtocolId) (volume : Int) :
    Except Error (List Nat) × List EngineCall :=
  if ¬ (0 ≤ volume ∧ volume ≤ 100) then
    (Except.error (Error.InvalidInput "volume must be between 0 and 100"), [])
  else
    match to_c_int payload.length "payload too large" with
    | Except.error err => (Except.error err, [])
    | Except.ok payload_len =>
      let size := e.encodeRC self.inst payload payload_len protocol volume 1
      if size ≤ 0 then
        (Except.error Error.EncodeFailed,
         [EngineCall.encodeCall self.inst payload_len protocol volume true 1])
      else
        let waveform := List.replicate size.toNat 0
        let written := e.encodeRC self.inst payload payload_len protocol volume 0
        if written ≤ 0 then
          (Except.error Error.EncodeFailed,
           [EngineCall.encodeCall self.inst payload_len protocol volume true 1,
            EngineCall.encodeCall self.inst payload_len protocol volume false 0])
        else
          (Except.ok
            ((overwrite waveform
                (e.encodeBytes self.inst payload payload_len protocol volume)).take
              written.toNat),
           [EngineCall.encodeCall self.inst payload_len protocol volume true 1,
            EngineCall.encodeCall self.inst payload_len protocol volume false 0])

/-- Mirrors `GgWave::decode` of src/src/lib.rs lines 120-143, paired with the
list of Engine calls made: the `to_c_int` length check, a destination buffer of
`MAX_DATA_SIZE` zero bytes whose length (256) is passed as the `payloadSize`
argument, and the match on the Engine's return code in source order
(`0`, `-1`, `-2`, positive, catch-all). -/
def GgWave.decode (e : Engine) (self : GgWave) (waveform : List Nat) :
    Except Error (Option (List Nat)) × List EngineCall :=
  match to_c_int waveform.length "waveform too large" with
  | Except.error err => (Except.error err, [])
  | Except.ok waveform_len =>
    let payload := List.replicate MAX_DATA_SIZE 0
    let decoded := e.ndecodeRC self.inst waveform waveform_len (MAX_DATA_SIZE : Int)
    let call := EngineCall.ndecodeCall self.inst waveform_len (MAX_DATA_SIZE : Int)
    if decoded = 0 then (Except.ok none, [call])
    else if decoded = -1 then (Except.error Error.DecodeFailed, [call])
    else if decoded = -2 then (Except.error Error.BufferTooSmall, [call])
    else if 0 < decoded then
      (Except.ok (some
        ((overwrite payload
            (e.ndecodeBytes self.inst waveform waveform_len (MAX_DATA_SIZE : Int))).take
          decoded.toNat)),
       [call])
    else (Except.error Error.DecodeFailed, [call])

/-- Mirrors `impl Drop for GgWave` of src/src/lib.rs lines 150-154: the drop
glue performs exactly one Engine call, `ggwave_free` on the session's own
handle. -/
def GgWave.dropCalls (self : GgWave) : List EngineCall :=
  [EngineCall.freeCall self.inst]

/-- One wrapper operation a caller can perform on a live Session. -/
inductive SessionOp where
  | encodeOp (payload : List Nat) (protocol : ggwave_ProtocolId) (volume : Int)
  | decodeOp (waveform : List Nat)

/-- Engine calls performed by one wrapper operation on a live Session. -/
def GgWave.runOp (e : Engine) (s : GgWave) : SessionOp → List EngineCall
  | SessionOp.encodeOp payload protocol volume => (GgWave.encode e s payload protocol volume).2
  | SessionOp.decodeOp waveform => (GgWave.decode e s waveform).2

/-- Engine calls of one complete Session lifetime: `GgWave::new` followed, when
construction succeeded, by any sequence of encode/decode calls and then by the
drop glue.  That drop runs exactly once when the owning binding leaves scope --
on every exit path, with no second run possible -- is Rust's ownership/Drop
semantics, encoded here in the shape of the trace; the content of each segment
comes from the translated source functions above. -/
def sessionLife (e : Engine) (p : ggwave_Parameters) (ops : List SessionOp) :
    List EngineCall :=
  match GgWave.new e p with
  | (Except.error _, calls) => calls
  | (Except.ok s, calls) => calls ++ ops.flatMap (GgWave.runOp e s) ++ s.dropCalls

/-- Whether an Engine call is the handle-free operation. -/
def EngineCall.isFree : EngineCall → Bool
  | EngineCall.freeCall _ => true
  | _ => false

/-- Whether a wrapper result is an `InvalidInput` error (of any message). -/
def isInvalidInputErr {α : Type} : Except Error α → Bool
  | Except.error (Error.InvalidInput _) => true
  | _ => false

/-- Mirrors the 16-bit branch of the CLI decode path, src/ggwave-cli/src/main.rs
line 156: `s as f32 / i16::MAX as f32`.  The division is modelled exactly over
ℚ; the true `f32` result differs from this rational by at most one unit in the
last place (relative error below 2^-24), far inside the tolerance stated about
it below. -/
def i16_sample_to_float (s : Int) : ℚ := (s : ℚ) / 32767

theorem overwrite_length (dst src : List Nat) : (overwrite dst src).length = dst.length := by
  simp [overwrite]
  omega

theorem overwrite_of_length_eq {dst src : List Nat} (h : src.length = dst.length) :
    overwrite dst src = src := by
  simp [overwrite, h, List.take_of_length_le (Nat.le_of_eq h.symm), List.drop_of_length_le]

/-- A concrete configuration value used to instantiate witnesses. -/
def sampleParams : ggwave_Parameters :=
  ⟨-1, 0, 0, 0, 1024, 0, ggwave_SampleFormat.GGWAVE_SAMPLE_FORMAT_F32,
    ggwave_SampleFormat.GGWAVE_SAMPLE_FORMAT_F32, 12⟩

/-- A concrete Session value used to instantiate witnesses. -/
def sessionZero : GgWave := ⟨0, sampleParams⟩

/-- A concrete Engine oracle whose every call reports 0 and writes nothing. -/
def zeroEngine : Engine :=
  ⟨fun _ => 0, fun _ _ _ _ _ _ => 0, fun _ _ _ _ _ => [], fun _ _ _ _ => 0, fun _ _ _ _ => []⟩

/-- A concrete Engine oracle whose init call reports a negative handle. -/
def failEngine : Engine :=
  ⟨fun _ => -1, fun _ _ _ _ _ _ => 0, fun _ _ _ _ _ => [], fun _ _ _ _ => 0, fun _ _ _ _ => []⟩

/-- A concrete Engine oracle with a successful encode path (query size 8, fill
return 6) and a successful decode path (return code 3, three bytes written),
used to instantiate witnesses. -/
def demoEngine : Engine :=
  ⟨fun _ => 1,
   fun _ _ _ _ _ query => if query = 1 then 8 else 6,
   fun _ payload _ _ _ => payload ++ payload,
   fun _ _ _ _ => 3,
   fun _ _ _ _ => [7, 8, 9]⟩

/-- C1: for every payload whose length fits the Engine's size field and every
volume in [0, 100], `encode` performs the two-phase handshake: it first calls
the Engine with a null output buffer and query flag 1; a return value ≤ 0 there
is `EncodeFailed`; otherwise it allocates a buffer of exactly the queried size,
calls the Engine again with query flag 0 and that buffer as destination, fails
with `EncodeFailed` on a return value ≤ 0, and otherwise returns the buffer
truncated to the fill-phase return value, so the successful result has
length > 0. -/
theorem C1_encode_two_phase_handshake (e : Engine) (s : GgWave) (payload : List Nat)
    (protocol : ggwave_ProtocolId) (volume : Int)
    (hlen : (payload.length : Int) ≤ c_int_max) (h0 : 0 ≤ volume) (h100 : volume ≤ 100) :
    (e.encodeRC s.inst payload (payload.length : Int) protocol volume 1 ≤ 0 →
      GgWave.encode e s payload protocol volume =
        (Except.error Error.EncodeFailed,
         [EngineCall.encodeCall s.inst (payload.length : Int) protocol volume true 1])) ∧
    (0 < e.encodeRC s.inst payload (payload.length : Int) protocol volume 1 →
      (e.encodeRC s.inst payload (payload.length : Int) protocol volume 0 ≤ 0 →
        GgWave.encode e s payload protocol volume =
          (Except.error Error.EncodeFailed,
           [EngineCall.encodeCall s.inst (payload.length : Int) protocol volume true 1,
            EngineCall.encodeCall s.inst (payload.length : Int) protocol volume false 0])) ∧
      (0 < e.encodeRC s.inst payload (payload.length : Int) protocol volume 0 →
        GgWave.encode e s payload protocol volume =
          (Except.ok
            ((overwrite
                (List.replicate
                  (e.encodeRC s.inst payload (payload.length : Int) protocol volume 1).toNat 0)
                (e.encodeBytes s.inst payload (payload.length : Int) protocol volume)).take
              (e.encodeRC s.inst payload (payload.length : Int) protocol volume 0).toNat),
           [EngineCall.encodeCall s.inst (payload.length : Int) protocol volume true 1,
            EngineCall.encodeCall s.inst (payload.length : Int) protocol volume false 0]) ∧
        ∀ out, (GgWave.encode e s payload protocol volume).1 = Except.ok out →
          0 < out.length)) := by
  have hvol : ¬¬(0 ≤ volume ∧ volume ≤ 100) := fun hc => hc ⟨h0, h100⟩
  refine ⟨fun hq => ?_, fun hq => ⟨fun hw => ?_, fun hw => ?_⟩⟩
  · simp only [GgWave.encode, to_c_int, if_pos hlen, if_neg hvol, if_pos hq]
  · simp only [GgWave.encode, to_c_int, if_pos hlen, if_neg hvol,
      if_neg (not_le.mpr hq), if_pos hw]
  · have heq : GgWave.encode e s payload protocol volume =
        (Except.ok
          ((overwrite
              (List.replicate
                (e.encodeRC s.inst payload (payload.length : Int) protocol volume 1).toNat 0)
              (e.encodeBytes s.inst payload (payload.length : Int) protocol volume)).take
            (e.encodeRC s.inst payload (payload.length : Int) protocol volume 0).toNat),
         [EngineCall.encodeCall s.inst (payload.length : Int) protocol volume true 1,
          EngineCall.encodeCall s.inst (payload.length : Int) protocol volume false 0]) := by
      simp only [GgWave.encode, to_c_int, if_pos hlen, if_neg hvol,
        if_neg (not_le.mpr hq), if_neg (not_le.mpr hw)]
    refine ⟨heq, fun out hout => ?_⟩
    rw [heq] at hout
    have hout' := Except.ok.inj hout
    subst hout'
    rw [List.length_take, overwrite_length, List.length_replicate]
    omega

/-- Witness for C1 at a concrete Engine and payload: the query phase reports 8,
the fill phase reports 6 and the result is the 6-byte truncation. -/
theorem C1_encode_two_phase_handshake_witness :
    GgWave.encode demoEngine sessionZero [1, 2, 3]
        ggwave_ProtocolId.GGWAVE_PROTOCOL_AUDIBLE_FAST 25 =
      (Except.ok [1, 2, 3, 1, 2, 3],
       [EngineCall.encodeCall 0 3 ggwave_ProtocolId.GGWAVE_PROTOCOL_AUDIBLE_FAST 25 true 1,
        EngineCall.encodeCall 0 3 ggwave_ProtocolId.GGWAVE_PROTOCOL_AUDIBLE_FAST 25 false 0]) :=
  (((C1_encode_two_phase_handshake demoEngine sessionZero [1, 2, 3]
      ggwave_ProtocolId.GGWAVE_PROTOCOL_AUDIBLE_FAST 25 (by decide) (by decide)
      (by decide)).2 (by decide)).2 (by decide)).1.trans rfl

/-- C2: for every waveform whose length fits the Engine's size field, `decode`
allocates a fixed 256-byte destination buffer (whose size 256 it passes to the
Engine) and maps the Engine's return code exactly as: 0 yields `Ok(None)`;
-1 yields `DecodeFailed`; -2 yields `BufferTooSmall`; any other non-positive
code also yields `DecodeFailed`; and a positive n yields success with the
destination buffer truncated to n bytes. -/
theorem C2_decode_return_code_mapping (e : Engine) (s : GgWave) (waveform : List Nat)
    (hlen : (waveform.length : Int) ≤ c_int_max) :
    (e.ndecodeRC s.inst waveform (waveform.length : Int) (MAX_DATA_SIZE : Int) = 0 →
      GgWave.decode e s waveform =
        (Except.ok none,
         [EngineCall.ndecodeCall s.inst (waveform.length : Int) (MAX_DATA_SIZE : Int)])) ∧
    (e.ndecodeRC s.inst waveform (waveform.length : Int) (MAX_DATA_SIZE : Int) = -1 →
      GgWave.decode e s waveform =
        (Except.error Error.DecodeFailed,
         [EngineCall.ndecodeCall s.inst (waveform.length : Int) (MAX_DATA_SIZE : Int)])) ∧
    (e.ndecodeRC s.inst waveform (waveform.length : Int) (MAX_DATA_SIZE : Int) = -2 →
      GgWave.decode e s waveform =
        (Except.error Error.BufferTooSmall,
         [EngineCall.ndecodeCall s.inst (waveform.length : Int) (MAX_DATA_SIZE : Int)])) ∧
    (e.ndecodeRC s.inst waveform (waveform.length : Int) (MAX_DATA_SIZE : Int) ≠ 0 →
      e.ndecodeRC s.inst waveform (waveform.length : Int) (MAX_DATA_SIZE : Int) ≠ -1 →
      e.ndecodeRC s.inst waveform (waveform.length : Int) (MAX_DATA_SIZE : Int) ≠ -2 →
      ¬ 0 < e.ndecodeRC s.inst waveform (waveform.length : Int) (MAX_DATA_SIZE : Int) →
      GgWave.decode e s waveform =
        (Except.error Error.DecodeFailed,
         [EngineCall.ndecodeCall s.inst (waveform.length : Int) (MAX_DATA_SIZE : Int)])) ∧
    (0 < e.ndecodeRC s.inst waveform (waveform.length : Int) (MAX_DATA_SIZE : Int) →
      GgWave.decode e s waveform =
        (Except.ok (some
          ((overwrite (List.replicate MAX_DATA_SIZE 0)
              (e.ndecodeBytes s.inst waveform (waveform.length : Int) (MAX_DATA_SIZE : Int))).take
            (e.ndecodeRC s.inst waveform (waveform.length : Int) (MAX_DATA_SIZE : Int)).toNat)),
         [EngineCall.ndecodeCall s.inst (waveform.length : Int) (MAX_DATA_SIZE : Int)])) := by
  refine ⟨fun h0 => ?_, fun h1 => ?_, fun h2 => ?_, fun h0 h1 h2 hpos => ?_, fun hpos => ?_⟩
  · simp only [GgWave.decode, to_c_int, if_pos hlen, if_pos h0]
  · have h0 : e.ndecodeRC s.inst waveform (waveform.length : Int) (MAX_DATA_SIZE : Int) ≠ 0 := by
      rw [h1]; decide
    simp only [GgWave.decode, to_c_int, if_pos hlen, if_neg h0, if_pos h1]
  · have h0 : e.ndecodeRC s.inst waveform (waveform.length : Int) (MAX_DATA_SIZE : Int) ≠ 0 := by
      rw [h2]; decide
    have h1 : e.ndecodeRC s.inst waveform (waveform.length : Int) (MAX_DATA_SIZE : Int) ≠ -1 := by
      rw [h2]; decide
    simp only [GgWave.decode, to_c_int, if_pos hlen, if_neg h0, if_neg h1, if_pos h2]
  · simp only [GgWave.decode, to_c_int, if_pos hlen, if_neg h0, if_neg h1, if_neg h2,
      if_neg hpos]
  · have h0 : e.ndecodeRC s.inst waveform (waveform.length : Int) (MAX_DATA_SIZE : Int) ≠ 0 := by
      omega
    have h1 : e.ndecodeRC s.inst waveform (waveform.length : Int) (MAX_DATA_SIZE : Int) ≠ -1 := by
      omega
    have h2 : e.ndecodeRC s.inst waveform (waveform.length : Int) (MAX_DATA_SIZE : Int) ≠ -2 := by
      omega
    simp only [GgWave.decode, to_c_int, if_pos hlen, if_neg h0, if_neg h1, if_neg h2,
      if_pos hpos]

set_option maxRecDepth 16384 in
/-- Witness for C2 at a concrete Engine reporting return code 3: the result is
the three written bytes and the call passed buffer size 256. -/
theorem C2_decode_return_code_mapping_witness :
    GgWave.decode demoEngine sessionZero [1, 2, 3] =
      (Except.ok (some [7, 8, 9]), [EngineCall.ndecodeCall 0 3 256]) :=
  (((((C2_decode_return_code_mapping demoEngine sessionZero [1, 2, 3]
      (by decide)).2).2).2).2 (by decide)).trans rfl

/-- C3: for every payload and protocol, `encode` fails with the volume
`InvalidInput` error for every volume v < 0 or v > 100, before any Engine call
is made (empty call trace), and the boundary volumes 0 and 100 are accepted:
at those volumes the call never fails with the volume `InvalidInput` error. -/
theorem C3_encode_volume_bounds (e : Engine) (s : GgWave) (payload : List Nat)
    (protocol : ggwave_ProtocolId) (volume : Int) :
    (volume < 0 ∨ 100 < volume →
      GgWave.encode e s payload protocol volume =
        (Except.error (Error.InvalidInput "volume must be between 0 and 100"), [])) ∧
    (volume = 0 ∨ volume = 100 →
      (GgWave.encode e s payload protocol volume).1 ≠
        Except.error (Error.InvalidInput "volume must be between 0 and 100")) := by
  constructor
  · intro h
    have hvol : ¬(0 ≤ volume ∧ volume ≤ 100) := by rcases h with h | h <;> omega
    simp only [GgWave.encode, if_pos hvol]
  · intro h
    have hvol : ¬¬(0 ≤ volume ∧ volume ≤ 100) := by rcases h with h | h <;> subst h <;> decide
    by_cases hl : (payload.length : Int) ≤ c_int_max
    · simp only [GgWave.encode, to_c_int, if_pos hl, if_neg hvol]
      split
      · simp
      · split
        · simp
        · simp
    · simp only [GgWave.encode, to_c_int, if_neg hl, if_neg hvol]
      simp only [Except.error.injEq, ne_eq, Error.InvalidInput.injEq]
      decide

/-- Witness for C3 at concrete volumes: -7 is rejected with the volume error and
an empty Engine-call trace, and the boundary volume 0 does not produce the
volume error. -/
theorem C3_encode_volume_bounds_witness :
    GgWave.encode zeroEngine sessionZero [1]
        ggwave_ProtocolId.GGWAVE_PROTOCOL_AUDIBLE_FAST (-7) =
      (Except.error (Error.InvalidInput "volume must be between 0 and 100"), []) ∧
    (GgWave.encode zeroEngine sessionZero [1]
        ggwave_ProtocolId.GGWAVE_PROTOCOL_AUDIBLE_FAST 0).1 ≠
      Except.error (Error.InvalidInput "volume must be between 0 and 100") :=
  ⟨(C3_encode_volume_bounds zeroEngine sessionZero [1]
      ggwave_ProtocolId.GGWAVE_PROTOCOL_AUDIBLE_FAST (-7)).1 (Or.inl (by decide)),
   (C3_encode_volume_bounds zeroEngine sessionZero [1]
      ggwave_ProtocolId.GGWAVE_PROTOCOL_AUDIBLE_FAST 0).2 (Or.inl rfl)⟩

/-- C4 as stated is false: `encode` can fail with `InvalidInput` although the
payload length fits the size field, namely when the volume is out of range (the
volume check precedes the length check).  Concretely, at volume -1 and the
empty payload the call fails with `InvalidInput` while the payload length 0
fits comfortably. -/
theorem C4_size_field_guard_counterexample :
    isInvalidInputErr (GgWave.encode zeroEngine sessionZero []
        ggwave_ProtocolId.GGWAVE_PROTOCOL_AUDIBLE_FAST (-1)).1 = true ∧
    (([] : List Nat).length : Int) ≤ c_int_max := by
  exact ⟨rfl, by decide⟩

/-- C4 amended: given a volume in [0, 100], `encode` fails with `InvalidInput`
exactly when the payload length does not fit the Engine's 32-bit signed size
field, and `decode` fails with `InvalidInput` exactly when the waveform length
does not fit it; in both operations the rejection happens before any Engine
call (the Engine-call trace is empty), so no Engine state is touched. -/
theorem C4_size_field_guard (e : Engine) (s : GgWave) (payload waveform : List Nat)
    (protocol : ggwave_ProtocolId) (volume : Int)
    (h0 : 0 ≤ volume) (h100 : volume ≤ 100) :
    (isInvalidInputErr (GgWave.encode e s payload protocol volume).1 = true ↔
      c_int_max < (payload.length : Int)) ∧
    (c_int_max < (payload.length : Int) →
      GgWave.encode e s payload protocol volume =
        (Except.error (Error.InvalidInput "payload too large"), [])) ∧
    (isInvalidInputErr (GgWave.decode e s waveform).1 = true ↔
      c_int_max < (waveform.length : Int)) ∧
    (c_int_max < (waveform.length : Int) →
      GgWave.decode e s waveform =
        (Except.error (Error.InvalidInput "waveform too large"), [])) := by
  have hvol : ¬¬(0 ≤ volume ∧ volume ≤ 100) := fun hc => hc ⟨h0, h100⟩
  refine ⟨?_, fun hbig => ?_, ?_, fun hbig => ?_⟩
  · by_cases hl : (payload.length : Int) ≤ c_int_max
    · simp only [GgWave.encode, to_c_int, if_pos hl, if_neg hvol]
      constructor
      · intro hinv
        exfalso
        revert hinv
        split
        · simp [isInvalidInputErr]
        · split
          · simp [isInvalidInputErr]
          · simp [isInvalidInputErr]
      · intro hc; omega
    · simp only [GgWave.encode, to_c_int, if_neg hl, if_neg hvol]
      simp only [isInvalidInputErr, true_iff]
      omega
  · have hl : ¬ (payload.length : Int) ≤ c_int_max := by omega
    simp only [GgWave.encode, to_c_int, if_neg hl, if_neg hvol]
  · by_cases hl : (waveform.length : Int) ≤ c_int_max
    · simp only [GgWave.decode, to_c_int, if_pos hl]
      constructor
      · intro hinv
        exfalso
        revert hinv
        split
        · simp [isInvalidInputErr]
        · split
          · simp [isInvalidInputErr]
          · split
            · simp [isInvalidInputErr]
            · split
              · simp [isInvalidInputErr]
              · simp [isInvalidInputErr]
      · intro hc; omega
    · simp only [GgWave.decode, to_c_int, if_neg hl]
      simp only [isInvalidInputErr, true_iff]
      omega
  · have hl : ¬ (waveform.length : Int) ≤ c_int_max := by omega
    simp only [GgWave.decode, to_c_int, if_neg hl]

/-- Witness for the amended C4 at concrete inputs that fit the size field: a
small encode and a small decode are not rejected as `InvalidInput`. -/
theorem C4_size_field_guard_witness :
    (isInvalidInputErr (GgWave.encode zeroEngine sessionZero [9]
        ggwave_ProtocolId.GGWAVE_PROTOCOL_AUDIBLE_FAST 25).1 = true ↔
      c_int_max < (([9] : List Nat).length : Int)) ∧
    isInvalidInputErr (GgWave.decode zeroEngine sessionZero [9]).1 = false :=
  ⟨(C4_size_field_guard zeroEngine sessionZero [9] [9]
      ggwave_ProtocolId.GGWAVE_PROTOCOL_AUDIBLE_FAST 25 (by decide) (by decide)).1,
   by rfl⟩

/-- C5: `GgWave::new` fails with `InitFailed` if and only if the Engine's init
operation reports a negative handle; on success the constructed Session holds a
handle ≥ 0 and stores by value exactly the parameters it was given, which the
`parameters()` accessor returns unchanged. -/
theorem C5_new_init_failed_iff (e : Engine) (p : ggwave_Parameters) :
    ((GgWave.new e p).1 = Except.error Error.InitFailed ↔ e.initRC p < 0) ∧
    (∀ s, (GgWave.new e p).1 = Except.ok s →
      0 ≤ s.inst ∧ s.inst = e.initRC p ∧ s.parameters = p) := by
  by_cases h : e.initRC p < 0
  · refine ⟨⟨fun _ => h, fun _ => ?_⟩, fun s hs => ?_⟩
    · simp only [GgWave.new, if_pos h]
    · rw [GgWave.new] at hs
      rw [if_pos h] at hs
      exact absurd hs (by simp)
  · refine ⟨⟨fun hc => ?_, fun hc => absurd hc h⟩, fun s hs => ?_⟩
    · rw [GgWave.new] at hc
      rw [if_neg h] at hc
      exact absurd hc (by simp)
    · rw [GgWave.new] at hs
      rw [if_neg h] at hs
      have : (⟨e.initRC p, p⟩ : GgWave) = s := Except.ok.inj hs
      subst this
      exact ⟨not_lt.mp h, rfl, rfl⟩

/-- Witness for C5: a failing init (handle -1) yields `InitFailed`, and a
successful init (handle 0) yields a Session holding handle 0 and the given
parameters unchanged. -/
theorem C5_new_init_failed_iff_witness :
    (GgWave.new failEngine sampleParams).1 = Except.error Error.InitFailed ∧
    (0 ≤ sessionZero.inst ∧ sessionZero.inst = zeroEngine.initRC sampleParams ∧
      sessionZero.parameters = sampleParams) :=
  ⟨(C5_new_init_failed_iff failEngine sampleParams).1.mpr (by decide),
   (C5_new_init_failed_iff zeroEngine sampleParams).2 sessionZero rfl⟩

theorem runOp_no_free (e : Engine) (s : GgWave) (op : SessionOp) :
    (GgWave.runOp e s op).filter EngineCall.isFree = [] := by
  cases op with
  | encodeOp payload protocol volume =>
    simp only [GgWave.runOp, GgWave.encode]
    split
    · rfl
    · split
      · rfl
      · split
        · rfl
        · split
          · rfl
          · rfl
  | decodeOp waveform =>
    simp only [GgWave.runOp, GgWave.decode]
    split
    · rfl
    · split
      · rfl
      · split
        · rfl
        · split
          · rfl
          · split
            · rfl
            · rfl

theorem opsTrace_no_free (e : Engine) (s : GgWave) (ops : List SessionOp) :
    (ops.flatMap (GgWave.runOp e s)).filter EngineCall.isFree = [] := by
  induction ops with
  | nil => rfl
  | cons op rest ih =>
    simp only [List.flatMap_cons, List.filter_append, runOp_no_free, ih, List.append_nil]

/-- C6: over a complete Session lifetime (construction, any sequence of encode
and decode calls, teardown), the Engine's handle-free operation appears in the
Engine-call trace exactly once, with the Session's own handle; for a creation
attempt that failed with `InitFailed` it never appears, so there is no
double-free path. -/
theorem C6_handle_freed_exactly_once (e : Engine) (p : ggwave_Parameters)
    (ops : List SessionOp) :
    ((GgWave.new e p).1 = Except.error Error.InitFailed →
      (sessionLife e p ops).filter EngineCall.isFree = []) ∧
    (∀ s, (GgWave.new e p).1 = Except.ok s →
      (sessionLife e p ops).filter EngineCall.isFree = [EngineCall.freeCall s.inst]) := by
  by_cases h : e.initRC p < 0
  · refine ⟨fun _ => ?_, fun s hs => ?_⟩
    · simp only [sessionLife, GgWave.new, if_pos h]
      rfl
    · rw [GgWave.new] at hs
      rw [if_pos h] at hs
      exact absurd hs (by simp)
  · refine ⟨fun hc => ?_, fun s hs => ?_⟩
    · rw [GgWave.new] at hc
      rw [if_neg h] at hc
      exact absurd hc (by simp)
    · rw [GgWave.new] at hs
      rw [if_neg h] at hs
      have hsv : (⟨e.initRC p, p⟩ : GgWave) = s := Except.ok.inj hs
      simp only [sessionLife, GgWave.new, if_neg h, hsv, List.filter_append,
        opsTrace_no_free, GgWave.dropCalls]
      rfl

/-- Witness for C6: a failed creation frees nothing; a successful lifetime with
one decode call in it frees exactly the session's handle, once. -/
theorem C6_handle_freed_exactly_once_witness :
    (sessionLife failEngine sampleParams []).filter EngineCall.isFree = [] ∧
    (sessionLife zeroEngine sampleParams
        [SessionOp.decodeOp [5]]).filter EngineCall.isFree = [EngineCall.freeCall 0] :=
  ⟨(C6_handle_freed_exactly_once failEngine sampleParams []).1 rfl,
   ((C6_handle_freed_exactly_once zeroEngine sampleParams
      [SessionOp.decodeOp [5]]).2 sessionZero rfl).trans rfl⟩

/-- Modelled from the spec: the Codec Engine itself (the vendored native ggwave
library behind the FFI declarations of src/src/ffi.rs) is not under src/; the
spec treats it as an external black box whose decode inverts its encode.  This
oracle realizes that contract in the simplest invertible way: the encoded
waveform is the payload prefixed with its length, the query and fill calls both
report that waveform's size, and decoding reports the prefixed length and
writes back the bytes after the prefix. -/
def specEngine : Engine :=
  ⟨fun _ => 0,
   fun _ payload _ _ _ _ => (payload.length : Int) + 1,
   fun _ payload _ _ _ => payload.length :: payload,
   fun _ waveform _ _ => (waveform.length : Int) - 1,
   fun _ waveform _ _ => waveform.drop 1⟩

theorem overwrite_buffer_take (n : Nat) (p : List Nat) (h : p.length ≤ n) :
    (overwrite (List.replicate n 0) p).take p.length = p := by
  unfold overwrite
  rw [List.length_replicate, List.take_of_length_le h]
  exact List.take_left p _

theorem decode_pos_eq (e : Engine) (s : GgWave) (waveform : List Nat)
    (hlen : (waveform.length : Int) ≤ c_int_max)
    (hpos : 0 < e.ndecodeRC s.inst waveform (waveform.length : Int) (MAX_DATA_SIZE : Int)) :
    GgWave.decode e s waveform =
      (Except.ok (some
        ((overwrite (List.replicate MAX_DATA_SIZE 0)
            (e.ndecodeBytes s.inst waveform (waveform.length : Int) (MAX_DATA_SIZE : Int))).take
          (e.ndecodeRC s.inst waveform (waveform.length : Int) (MAX_DATA_SIZE : Int)).toNat)),
       [EngineCall.ndecodeCall s.inst (waveform.length : Int) (MAX_DATA_SIZE : Int)]) := by
  have h0 : e.ndecodeRC s.inst waveform (waveform.length : Int) (MAX_DATA_SIZE : Int) ≠ 0 := by
    omega
  have h1 : e.ndecodeRC s.inst waveform (waveform.length : Int) (MAX_DATA_SIZE : Int) ≠ -1 := by
    omega
  have h2 : e.ndecodeRC s.inst waveform (waveform.length : Int) (MAX_DATA_SIZE : Int) ≠ -2 := by
    omega
  simp only [GgWave.decode, to_c_int, if_pos hlen, if_neg h0, if_neg h1, if_neg h2,
    if_pos hpos]

/-- C7 as stated is false for the empty payload: `decode` maps the Engine's
return code 0 to `Ok(None)` and a positive code always yields a nonempty
payload, so no decode result ever equals `Some([])`; concretely, encoding the
empty payload succeeds and decoding the produced waveform yields `None`, not
`Some([])`.  (The reference implementation's Engine likewise rejects empty
payloads.) -/
theorem C7_roundtrip_counterexample :
    (GgWave.encode specEngine sessionZero []
        ggwave_ProtocolId.GGWAVE_PROTOCOL_AUDIBLE_FAST 25).1 = Except.ok [0] ∧
    (GgWave.decode specEngine sessionZero [0]).1 = Except.ok none ∧
    (Except.ok none : Except Error (Option (List Nat))) ≠ Except.ok (some []) := by
  refine ⟨rfl, rfl, ?_⟩
  simp

/-- C7 amended: for every nonempty byte payload p of length ≤ 256, every
protocol selector and every volume in [0, 100], decoding the waveform produced
by `encode(p, selector, v)` yields `Some(p)`, when the encoding and decoding
Sessions use matching sample-format and sample-rate configuration (Engine
modelled from the spec as a black box whose decode inverts its encode). -/
theorem C7_roundtrip_amended (tx rx : GgWave) (p : List Nat)
    (protocol : ggwave_ProtocolId) (volume : Int)
    (hne : p ≠ []) (hlen : p.length ≤ MAX_DATA_SIZE)
    (h0 : 0 ≤ volume) (h100 : volume ≤ 100)
    (_hfmt : rx.parameters.sampleFormatInp = tx.parameters.sampleFormatOut)
    (_hrate : rx.parameters.sampleRateInp = tx.parameters.sampleRateOut) :
    ∃ w, (GgWave.encode specEngine tx p protocol volume).1 = Except.ok w ∧
      (GgWave.decode specEngine rx w).1 = Except.ok (some p) := by
  have hvol : ¬¬(0 ≤ volume ∧ volume ≤ 100) := fun hc => hc ⟨h0, h100⟩
  have hp : 0 < p.length := List.length_pos.mpr hne
  have hlenI : (p.length : Int) ≤ c_int_max := by
    have : p.length ≤ 256 := hlen
    unfold c_int_max
    omega
  refine ⟨p.length :: p, ?_, ?_⟩
  · have hq : ¬ specEngine.encodeRC tx.inst p (p.length : Int) protocol volume 1 ≤ 0 := by
      show ¬ ((p.length : Int) + 1 ≤ 0)
      omega
    have hw : ¬ specEngine.encodeRC tx.inst p (p.length : Int) protocol volume 0 ≤ 0 := by
      show ¬ ((p.length : Int) + 1 ≤ 0)
      omega
    simp only [GgWave.encode, to_c_int, if_pos hlenI, if_neg hvol, if_neg hq, if_neg hw]
    show Except.ok ((overwrite (List.replicate ((p.length : Int) + 1).toNat 0)
      (p.length :: p)).take ((p.length : Int) + 1).toNat) = _
    have htn : ((p.length : Int) + 1).toNat = p.length + 1 := by omega
    rw [htn, overwrite_of_length_eq (by simp), List.take_of_length_le (by simp)]
  · have hlen2 : (((p.length :: p).length : Nat) : Int) ≤ c_int_max := by
      have : p.length ≤ 256 := hlen
      simp only [List.length_cons]
      unfold c_int_max
      omega
    have hrc : specEngine.ndecodeRC rx.inst (p.length :: p)
        (((p.length :: p).length : Nat) : Int) (MAX_DATA_SIZE : Int) = (p.length : Int) := by
      show ((((p.length :: p).length : Nat) : Int)) - 1 = (p.length : Int)
      simp only [List.length_cons]
      push_cast
      omega
    have hpos : 0 < specEngine.ndecodeRC rx.inst (p.length :: p)
        (((p.length :: p).length : Nat) : Int) (MAX_DATA_SIZE : Int) := by
      rw [hrc]; omega
    rw [congrArg Prod.fst (decode_pos_eq specEngine rx (p.length :: p) hlen2 hpos)]
    show Except.ok (some ((overwrite (List.replicate MAX_DATA_SIZE 0)
      ((p.length :: p).drop 1)).take
        ((((p.length :: p).length : Nat) : Int) - 1).toNat)) = _
    have htn : ((((p.length :: p).length : Nat) : Int) - 1).toNat = p.length := by
      simp only [List.length_cons]
      omega
    have hdrop : (p.length :: p).drop 1 = p := rfl
    rw [htn, hdrop, overwrite_buffer_take MAX_DATA_SIZE p hlen]

/-- Witness for the amended C7 at a concrete nonempty payload: the round trip
through the spec-modelled Engine recovers [10, 20, 30]. -/
theorem C7_roundtrip_amended_witness :
    ∃ w, (GgWave.encode specEngine sessionZero [10, 20, 30]
        ggwave_ProtocolId.GGWAVE_PROTOCOL_AUDIBLE_FAST 25).1 = Except.ok w ∧
      (GgWave.decode specEngine sessionZero w).1 = Except.ok (some [10, 20, 30]) :=
  C7_roundtrip_amended sessionZero sessionZero [10, 20, 30]
    ggwave_ProtocolId.GGWAVE_PROTOCOL_AUDIBLE_FAST 25 (by decide) (by decide)
    (by decide) (by decide) rfl rfl

/-- C9: in the command surface's decode path, a 16-bit integer sample is
converted to 32-bit float by linear normalization by `i16::MAX` (division by
32767): the conversion is additive, and the samples -32768, 0 and 32767 map to
-1.0, 0.0 and ~1.0 within a tolerance of 1/10000 (the off-by-one offset of the
most negative sample is 1/32767, and the float rounding error is smaller
still). -/
theorem C9_i16_to_float_normalization :
    (∀ s t : Int, i16_sample_to_float (s + t) =
      i16_sample_to_float s + i16_sample_to_float t) ∧
    |i16_sample_to_float (-32768) - (-1)| ≤ 1 / 10000 ∧
    i16_sample_to_float 0 = 0 ∧
    |i16_sample_to_float 32767 - 1| ≤ 1 / 10000 := by
  refine ⟨fun s t => ?_, ?_, ?_, ?_⟩
  · unfold i16_sample_to_float
    push_cast
    ring
  · rw [abs_le]
    constructor <;> norm_num [i16_sample_to_float]
  · norm_num [i16_sample_to_float]
  · rw [abs_le]
    constructor <;> norm_num [i16_sample_to_float]

/-- A concrete Engine oracle whose decode call reports return code 300 (larger
than the 256-byte destination buffer) and writes 400 bytes, exercising the
truncation cap. -/
def bigEngine : Engine :=
  ⟨fun _ => 0, fun _ _ _ _ _ _ => 0, fun _ _ _ _ _ => [],
   fun _ _ _ _ => 300, fun _ _ _ _ => List.replicate 400 7⟩

/-- C10: every payload returned by a successful decode has length at most
`MAX_DATA_SIZE` = 256 bytes: the destination buffer has capacity exactly 256
and truncation never extends it, so even when the Engine reports a return
value greater than 256 the returned payload is capped at 256 bytes and never
exposes data beyond the buffer. -/
theorem C10_decode_payload_bounded (e : Engine) (s : GgWave)
    (waveform payload : List Nat)
    (h : (GgWave.decode e s waveform).1 = Except.ok (some payload)) :
    payload.length ≤ MAX_DATA_SIZE := by
  by_cases hl : (waveform.length : Int) ≤ c_int_max
  · by_cases hpos :
        0 < e.ndecodeRC s.inst waveform (waveform.length : Int) (MAX_DATA_SIZE : Int)
    · rw [congrArg Prod.fst (decode_pos_eq e s waveform hl hpos)] at h
      have hp := Option.some.inj (Except.ok.inj h)
      rw [hp.symm, List.length_take, overwrite_length, List.length_replicate]
      omega
    · exfalso
      revert h
      simp only [GgWave.decode, to_c_int, if_pos hl]
      repeat' split
      all_goals intro hc
      all_goals first
        | omega
        | simp at hc
  · exfalso
    revert h
    simp only [GgWave.decode, to_c_int, if_neg hl]
    simp

set_option maxRecDepth 16384 in
/-- Witness for C10 at a concrete Engine reporting return code 300 with 400
bytes written: the returned payload is exactly the 256-byte buffer content. -/
theorem C10_decode_payload_bounded_witness :
    (List.replicate 256 7).length ≤ MAX_DATA_SIZE :=
  C10_decode_payload_bounded bigEngine sessionZero [1] (List.replicate 256 7) (by rfl)

